import Mathlib

/-!
Verification of the date-parsing core in `src/deps/v8/src/dateparser.cc`:
the `DayComposer`, `TimeComposer` and `TimeZoneComposer` finalization
functions (`Write`) and the static `KeywordTable` with its `Lookup` scan.

The output record (a `FixedArray` of tagged small-integer slots in the C++
code) is modelled as a function from slot names to `Option Int`: `some n`
stands for a small-integer value `Smi::FromInt(n)`, `none` stands for the
null value used as the explicit "absent" marker for `UTC_OFFSET`.

The range predicates (`IsDay`, `IsMonth`, `IsHour`, `IsHour12`, `IsMinute`,
`IsSecond`, `Between`) and `Smi::IsValid` are declared in `dateparser.h`,
which is not part of the sources; they are modelled from the spec, each
with a doc comment saying so.
-/

namespace DateParser

/-- Modelled from the spec: `Between(x, lo, hi)` is the inclusive range
check used by all range predicates of `dateparser.h` (ranges such as
"1–31" and "0–59" are inclusive on both ends). -/
def Between (x lo hi : Int) : Bool := decide (lo ≤ x ∧ x ≤ hi)

/-- Modelled from the spec: a valid day-of-month value is 1–31
(`IsDay` in `dateparser.h`). -/
def IsDay (x : Int) : Bool := Between x 1 31

/-- Modelled from the spec: a valid month value is 1–12
(`IsMonth` in `dateparser.h`). -/
def IsMonth (x : Int) : Bool := Between x 1 12

/-- Modelled from the spec: a valid hour is 0–23 (`IsHour` in
`dateparser.h`). -/
def IsHour (x : Int) : Bool := Between x 0 23

/-- Modelled from the spec: a valid 12-hour-clock value is 1–12 or the
zero-equivalent 0 (`IsHour12` in `dateparser.h`), i.e. 0–12. -/
def IsHour12 (x : Int) : Bool := Between x 0 12

/-- Modelled from the spec: a valid minute is 0–59 (`IsMinute` in
`dateparser.h`). -/
def IsMinute (x : Int) : Bool := Between x 0 59

/-- Modelled from the spec: a valid second is 0–59 (`IsSecond` in
`dateparser.h`). -/
def IsSecond (x : Int) : Bool := Between x 0 59

namespace Smi

/-- Modelled from the spec: `Smi::IsValid` checks that a value fits the
platform's representable small-integer range; V8 small integers are
31-bit two's-complement values, `-2^30 ≤ x ≤ 2^30 - 1`. -/
def IsValid (x : Int) : Bool := decide (-(2 ^ 30) ≤ x ∧ x ≤ 2 ^ 30 - 1)

end Smi

/-- The named slots of the output record (`FixedArray` indices `YEAR`,
`MONTH`, `DAY`, `HOUR`, `MINUTE`, `SECOND`, `UTC_OFFSET`). -/
inductive Slot
  | YEAR
  | MONTH
  | DAY
  | HOUR
  | MINUTE
  | SECOND
  | UTC_OFFSET
deriving DecidableEq, Repr

/-- The output record: each slot holds either a small integer (`some n`,
for `Smi::FromInt(n)`) or the null value (`none`, the "absent" marker). -/
def FixedArray : Type := Slot → Option Int

/-- `output->set(s, v)` on the output record. -/
def FixedArray.set (a : FixedArray) (s : Slot) (v : Option Int) : FixedArray :=
  fun s' => if s' = s then v else a s'

/-- `DayComposer` accumulator state: the numeric components in insertion
order (`comp_` with count `index_`, here the list and its length) and the
optional named month (`named_month_`, `kNone` rendered as `none`). -/
structure DayComposer where
  comp : List Int
  named_month : Option Int

/-- The positional-resolution step of `DayComposer::Write`
(`dateparser.cc` lines 40–67): turns the accumulated components into a
`(year, month, day)` triple, or `none` on the early `return false` paths
(too few components). The year defaults to 0 when no component supplies
it; `comp_[i]` is read as `comp.getD i 0` and is only ever read at
positions below `index_`. -/
def DayComposer.resolve (c : DayComposer) : Option (Int × Int × Int) :=
  match c.named_month with
  | none =>
    if c.comp.length < 2 then none
    else if c.comp.length == 3 && !IsDay (c.comp.getD 0 0) then
      -- YMD
      some (c.comp.getD 0 0, c.comp.getD 1 0, c.comp.getD 2 0)
    else
      -- MD(Y)
      some ((if c.comp.length == 3 then c.comp.getD 2 0 else 0),
            c.comp.getD 0 0, c.comp.getD 1 0)
  | some m =>
    if c.comp.length < 1 then none
    else if c.comp.length == 1 then
      -- MD or DM
      some (0, m, c.comp.getD 0 0)
    else if !IsDay (c.comp.getD 0 0) then
      -- YMD, MYD, or YDM
      some (c.comp.getD 0 0, m, c.comp.getD 1 0)
    else
      -- DMY, MDY, or DYM
      some (c.comp.getD 1 0, m, c.comp.getD 0 0)

/-- The two-digit-year normalization of `DayComposer::Write`
(`dateparser.cc` lines 70–71): years 0–49 get 2000 added, years 50–99
get 1900 added, all other years pass through. -/
def normalizeYear (year : Int) : Int :=
  if Between year 0 49 then year + 2000
  else if Between year 50 99 then year + 1900
  else year

/-- `DayComposer::Write` (`dateparser.cc` lines 35–85): resolve the
components positionally, normalize the year, validate, and on success
write `YEAR` (as-is), `MONTH` (0-based, `month - 1`) and `DAY` (as-is).
Returns the success flag together with the (possibly updated) output. -/
def DayComposer.Write (c : DayComposer) (output : FixedArray) :
    Bool × FixedArray :=
  match c.resolve with
  | none => (false, output)
  | some (year, month, day) =>
    let year := normalizeYear year
    if !Smi.IsValid year || !IsMonth month || !IsDay day then (false, output)
    else
      (true,
        ((output.set .YEAR (some year)).set .MONTH (some (month - 1))).set
          .DAY (some day))

/-- `TimeComposer` accumulator state: the numeric components in insertion
order (hour, minute, second as encountered) and the optional AM/PM hour
offset (`hour_offset_`, `kNone` rendered as `none`). -/
structure TimeComposer where
  comp : List Int
  hour_offset : Option Int

/-- The resolution step of `TimeComposer::Write` (`dateparser.cc` lines
89–104): missing components default to 0 (the `while` loop padding
`comp_` with zeros, here `getD _ 0`); if an hour offset was set the hour
must be a valid 12-hour-clock value and is reduced modulo 12 (C truncated
`%`, `Int.tmod`) before the offset is added; otherwise the components
pass through. `none` is the early `return false` path. -/
def TimeComposer.resolve (c : TimeComposer) : Option (Int × Int × Int) :=
  let hour := c.comp.getD 0 0
  let minute := c.comp.getD 1 0
  let second := c.comp.getD 2 0
  match c.hour_offset with
  | some off =>
    if !IsHour12 hour then none
    else some (hour.tmod 12 + off, minute, second)
  | none => some (hour, minute, second)

/-- `TimeComposer::Write` (`dateparser.cc` lines 88–116): resolve the
components, validate the ranges, and on success write `HOUR`, `MINUTE`,
`SECOND` as-is. -/
def TimeComposer.Write (c : TimeComposer) (output : FixedArray) :
    Bool × FixedArray :=
  match c.resolve with
  | none => (false, output)
  | some (hour, minute, second) =>
    if !IsHour hour || !IsMinute minute || !IsSecond second then
      (false, output)
    else
      (true,
        ((output.set .HOUR (some hour)).set .MINUTE (some minute)).set
          .SECOND (some second))

/-- `TimeZoneComposer` accumulator state: optional sign (+1 or -1), optional
hour magnitude, optional minute magnitude (`kNone` rendered as `none`). -/
structure TimeZoneComposer where
  sign : Option Int
  hour : Option Int
  minute : Option Int

/-- `TimeZoneComposer::Write` (`dateparser.cc` lines 118–133): with a
sign set, unset hour/minute default to 0, the offset in seconds is
`sign * (hour*3600 + minute*60)` and must fit the small-integer range;
with no sign set, the null "absent" marker is written and the call
succeeds. -/
def TimeZoneComposer.Write (c : TimeZoneComposer) (output : FixedArray) :
    Bool × FixedArray :=
  match c.sign with
  | some s =>
    let hour := c.hour.getD 0
    let minute := c.minute.getD 0
    let total_seconds := s * (hour * 3600 + minute * 60)
    if !Smi.IsValid total_seconds then (false, output)
    else (true, output.set .UTC_OFFSET (some total_seconds))
  | none => (true, output.set .UTC_OFFSET none)

/-- The keyword classification tags (`KeywordType` in `dateparser.h`):
month names, AM/PM markers, timezone abbreviations, and the sentinel. -/
inductive KeywordType
  | INVALID
  | MONTH_NAME
  | TIME_ZONE_NAME
  | AM_PM
deriving DecidableEq, Repr

/-- One row of the keyword table: a 3-character prefix (as ASCII code
points, 0 for `\x7b'\0'\x7d`), the classification tag, and the value. -/
structure Entry where
  c0 : Nat
  c1 : Nat
  c2 : Nat
  type : KeywordType
  value : Int
deriving DecidableEq, Repr

namespace KeywordTable

/-- `KeywordTable::array` (`dateparser.cc` lines 135–163): the static
keyword table, terminated by the `INVALID` sentinel entry. -/
def array : List Entry :=
  [⟨'j'.toNat, 'a'.toNat, 'n'.toNat, .MONTH_NAME, 1⟩,
   ⟨'f'.toNat, 'e'.toNat, 'b'.toNat, .MONTH_NAME, 2⟩,
   ⟨'m'.toNat, 'a'.toNat, 'r'.toNat, .MONTH_NAME, 3⟩,
   ⟨'a'.toNat, 'p'.toNat, 'r'.toNat, .MONTH_NAME, 4⟩,
   ⟨'m'.toNat, 'a'.toNat, 'y'.toNat, .MONTH_NAME, 5⟩,
   ⟨'j'.toNat, 'u'.toNat, 'n'.toNat, .MONTH_NAME, 6⟩,
   ⟨'j'.toNat, 'u'.toNat, 'l'.toNat, .MONTH_NAME, 7⟩,
   ⟨'a'.toNat, 'u'.toNat, 'g'.toNat, .MONTH_NAME, 8⟩,
   ⟨'s'.toNat, 'e'.toNat, 'p'.toNat, .MONTH_NAME, 9⟩,
   ⟨'o'.toNat, 'c'.toNat, 't'.toNat, .MONTH_NAME, 10⟩,
   ⟨'n'.toNat, 'o'.toNat, 'v'.toNat, .MONTH_NAME, 11⟩,
   ⟨'d'.toNat, 'e'.toNat, 'c'.toNat, .MONTH_NAME, 12⟩,
   ⟨'a'.toNat, 'm'.toNat, 0, .AM_PM, 0⟩,
   ⟨'p'.toNat, 'm'.toNat, 0, .AM_PM, 12⟩,
   ⟨'u'.toNat, 't'.toNat, 0, .TIME_ZONE_NAME, 0⟩,
   ⟨'u'.toNat, 't'.toNat, 'c'.toNat, .TIME_ZONE_NAME, 0⟩,
   ⟨'g'.toNat, 'm'.toNat, 't'.toNat, .TIME_ZONE_NAME, 0⟩,
   ⟨'c'.toNat, 'd'.toNat, 't'.toNat, .TIME_ZONE_NAME, -5⟩,
   ⟨'c'.toNat, 's'.toNat, 't'.toNat, .TIME_ZONE_NAME, -6⟩,
   ⟨'e'.toNat, 'd'.toNat, 't'.toNat, .TIME_ZONE_NAME, -4⟩,
   ⟨'e'.toNat, 's'.toNat, 't'.toNat, .TIME_ZONE_NAME, -5⟩,
   ⟨'m'.toNat, 'd'.toNat, 't'.toNat, .TIME_ZONE_NAME, -6⟩,
   ⟨'m'.toNat, 's'.toNat, 't'.toNat, .TIME_ZONE_NAME, -7⟩,
   ⟨'p'.toNat, 'd'.toNat, 't'.toNat, .TIME_ZONE_NAME, -7⟩,
   ⟨'p'.toNat, 's'.toNat, 't'.toNat, .TIME_ZONE_NAME, -8⟩,
   ⟨0, 0, 0, .INVALID, 0⟩]

/-- The inner `while` loop of `KeywordTable::Lookup`: the number of
leading positions (0–3) at which the query prefix `p` agrees with the
entry's prefix characters. -/
def matchLen (e : Entry) (p : Nat × Nat × Nat) : Nat :=
  if p.1 != e.c0 then 0
  else if p.2.1 != e.c1 then 1
  else if p.2.2 != e.c2 then 2
  else 3

/-- The `for` loop of `KeywordTable::Lookup` (`dateparser.cc` lines
169–182): scan the entries starting at index `i`, stopping at the first
`INVALID` entry (returning its index) or at the first full prefix match
whose length is legal (word longer than the keyword is only allowed for
month names). -/
def lookupAux (p : Nat × Nat × Nat) (len : Int) :
    Nat → List Entry → Nat
  | i, [] => i
  | i, e :: es =>
    if e.type = .INVALID then i
    else if matchLen e p == 3 &&
        (decide (len ≤ 3) || decide (e.type = .MONTH_NAME)) then i
    else lookupAux p len (i + 1) es

/-- `KeywordTable::Lookup` (`dateparser.cc` lines 167–183): linear scan
of the static table from index 0. -/
def Lookup (p : Nat × Nat × Nat) (len : Int) : Nat := lookupAux p len 0 array

/-- The specification's acceptance test, stated from the claim's words
for comparison with `Lookup`: an entry is accepted for query prefix `p`
and word length `len` when all three prefix characters match positionally
and either `len ≤ 3` or the entry is classified as a month name. -/
def acceptsE (e : Entry) (p : Nat × Nat × Nat) (len : Int) : Bool :=
  (p.1 == e.c0 && p.2.1 == e.c1 && p.2.2 == e.c2) &&
    (decide (len ≤ 3) || decide (e.type = .MONTH_NAME))

/-- The index of the first accepted entry of a list, if any (claim
side). -/
def firstAccepted (p : Nat × Nat × Nat) (len : Int) :
    List Entry → Option Nat
  | [] => none
  | e :: es =>
    if acceptsE e p len then some 0
    else (firstAccepted p len es).map (· + 1)

/-- The specification reading of `Lookup` (claim side): the index of the
first accepted entry of the table, or the index of the sentinel entry —
the last one — when no entry is accepted. -/
def LookupSpec (p : Nat × Nat × Nat) (len : Int) : Nat :=
  match firstAccepted p len array with
  | some i => i
  | none => array.length - 1

end KeywordTable

/-- An output record with every slot still unset; used to instantiate the
claim theorems at concrete inputs. -/
def emptyOutput : FixedArray := fun _ => none

/-- C5: in `DayComposer::Write`, after positional resolution the year is
normalized: a year in [0,49] has 2000 added, a year in [50,99] has 1900
added, and any other year (≥ 100 or negative) is unchanged; in
particular the default year 0 becomes 2000. -/
theorem C5_two_digit_year_normalization (y : Int) :
    (0 ≤ y ∧ y ≤ 49 → normalizeYear y = y + 2000) ∧
    (50 ≤ y ∧ y ≤ 99 → normalizeYear y = y + 1900) ∧
    (y < 0 ∨ 100 ≤ y → normalizeYear y = y) ∧
    normalizeYear 0 = 2000 := by
  refine ⟨fun h => ?_, fun h => ?_, fun h => ?_, by decide⟩ <;>
    · simp only [normalizeYear, Between, decide_eq_true_eq]
      split_ifs <;> omega

/-- C5 witness: concrete instances of the year normalization. -/
theorem C5_two_digit_year_normalization_witness :
    normalizeYear 5 = 2005 ∧ normalizeYear 85 = 1985 ∧
    normalizeYear 2005 = 2005 ∧ normalizeYear 0 = 2000 := by
  have h5 := (C5_two_digit_year_normalization 5).1 ⟨by decide, by decide⟩
  have h85 := (C5_two_digit_year_normalization 85).2.1 ⟨by decide, by decide⟩
  have h2005 := (C5_two_digit_year_normalization 2005).2.2.1 (Or.inr (by decide))
  have h0 := (C5_two_digit_year_normalization 0).2.2.2
  refine ⟨by omega, by omega, h2005, h0⟩

/-- C1: `DayComposer::Write` with no named month: fewer than 2 numeric
components fail; exactly 3 components whose first is not a valid day are
resolved as Year-Month-Day; otherwise (2 components, or 3 with a valid
first day) the resolution is Month-Day(-Year). `resolve` returns the
triple in `(year, month, day)` order. -/
theorem C1_day_write_no_named_month (c : DayComposer) (out : FixedArray)
    (h : c.named_month = none) :
    (c.comp.length < 2 → (c.Write out).1 = false) ∧
    (∀ a b d, c.comp = [a, b, d] → IsDay a = false →
      c.resolve = some (a, b, d)) ∧
    (∀ a b d, c.comp = [a, b, d] → IsDay a = true →
      c.resolve = some (d, a, b)) ∧
    (∀ a b, c.comp = [a, b] → c.resolve = some (0, a, b)) := by
  refine ⟨fun hlen => ?_, fun a b d hc hday => ?_, fun a b d hc hday => ?_,
    fun a b hc => ?_⟩
  · have hres : c.resolve = none := by
      simp [DayComposer.resolve, h, hlen]
    simp [DayComposer.Write, hres]
  · simp [DayComposer.resolve, h, hc, hday]
  · simp [DayComposer.resolve, h, hc, hday]
  · simp [DayComposer.resolve, h, hc]

/-- C1 witness: concrete instances — an ambiguous triple starting with a
valid day resolves as Month-Day-Year, a triple starting with 1999
resolves as Year-Month-Day, and a single component fails. -/
theorem C1_day_write_no_named_month_witness :
    DayComposer.resolve ⟨[3, 15, 1999], none⟩ = some (1999, 3, 15) ∧
    DayComposer.resolve ⟨[1999, 2, 15], none⟩ = some (1999, 2, 15) ∧
    DayComposer.resolve ⟨[5, 15], none⟩ = some (0, 5, 15) ∧
    (DayComposer.Write ⟨[5], none⟩ emptyOutput).1 = false := by
  refine ⟨?_, ?_, ?_, ?_⟩
  · exact (C1_day_write_no_named_month ⟨[3, 15, 1999], none⟩ emptyOutput
      rfl).2.2.1 3 15 1999 rfl (by decide)
  · exact (C1_day_write_no_named_month ⟨[1999, 2, 15], none⟩ emptyOutput
      rfl).2.1 1999 2 15 rfl (by decide)
  · exact (C1_day_write_no_named_month ⟨[5, 15], none⟩ emptyOutput
      rfl).2.2.2 5 15 rfl
  · exact (C1_day_write_no_named_month ⟨[5], none⟩ emptyOutput rfl).1
      (by decide)

/-- C2: `DayComposer::Write` with a named month `m`: zero numeric
components fail; one component is the day; with two components the first
is the year exactly when it is not a valid day value, otherwise it is the
day and the second is the year. `resolve` returns `(year, month, day)`. -/
theorem C2_day_write_named_month (c : DayComposer) (out : FixedArray)
    (m : Int) (h : c.named_month = some m) :
    (c.comp = [] → (c.Write out).1 = false) ∧
    (∀ a, c.comp = [a] → c.resolve = some (0, m, a)) ∧
    (∀ a b, c.comp = [a, b] → IsDay a = false → c.resolve = some (a, m, b)) ∧
    (∀ a b, c.comp = [a, b] → IsDay a = true → c.resolve = some (b, m, a)) := by
  refine ⟨fun hc => ?_, fun a hc => ?_, fun a b hc hday => ?_,
    fun a b hc hday => ?_⟩
  · have hres : c.resolve = none := by
      simp [DayComposer.resolve, h, hc]
    simp [DayComposer.Write, hres]
  · simp [DayComposer.resolve, h, hc]
  · simp [DayComposer.resolve, h, hc, hday]
  · simp [DayComposer.resolve, h, hc, hday]

/-- C2 witness: with named month 3, `(1999, 15)` resolves as year 1999
and day 15, `(15, 1999)` as day 15 and year 1999, a single component 15
is the day, and zero components fail. -/
theorem C2_day_write_named_month_witness :
    DayComposer.resolve ⟨[1999, 15], some 3⟩ = some (1999, 3, 15) ∧
    DayComposer.resolve ⟨[15, 1999], some 3⟩ = some (1999, 3, 15) ∧
    DayComposer.resolve ⟨[15], some 3⟩ = some (0, 3, 15) ∧
    (DayComposer.Write ⟨[], some 3⟩ emptyOutput).1 = false := by
  refine ⟨?_, ?_, ?_, ?_⟩
  · exact (C2_day_write_named_month ⟨[1999, 15], some 3⟩ emptyOutput 3
      rfl).2.2.1 1999 15 rfl (by decide)
  · exact (C2_day_write_named_month ⟨[15, 1999], some 3⟩ emptyOutput 3
      rfl).2.2.2 15 1999 rfl (by decide)
  · exact (C2_day_write_named_month ⟨[15], some 3⟩ emptyOutput 3
      rfl).2.1 15 rfl
  · exact (C2_day_write_named_month ⟨[], some 3⟩ emptyOutput 3 rfl).1 rfl

/-- C10: with no named month and three components whose first is in
13–31, `DayComposer::Write` always fails: the first component counts as a
valid day, so the sequence is read as Month-Day-Year, and the 1–12 month
check rejects it. -/
theorem C10_day_first_between_13_and_31_fails (c : DayComposer)
    (out : FixedArray) (h : c.named_month = none) (a b d : Int)
    (hc : c.comp = [a, b, d]) (h13 : 13 ≤ a) (h31 : a ≤ 31) :
    (c.Write out).1 = false := by
  have hday : IsDay a = true := by
    simp only [IsDay, Between, decide_eq_true_eq]; omega
  have hres : c.resolve = some (d, a, b) := by
    simp [DayComposer.resolve, h, hc, hday]
  have hmonth : IsMonth a = false := by
    simp only [IsMonth, Between, decide_eq_false_iff_not, not_and]; omega
  simp [DayComposer.Write, hres, hmonth]

/-- C7: after resolution, `DayComposer::Write` succeeds exactly when the
normalized year fits the small-integer range, the month is 1–12 and the
day is 1–31 (bounds only, no month-length or leap-year cross-check); on
success it writes `YEAR` as-is, `MONTH` 0-based, and `DAY` as-is. -/
theorem C7_day_write_validation_and_output (c : DayComposer)
    (out : FixedArray) (y m d : Int) (h : c.resolve = some (y, m, d)) :
    ((c.Write out).1 = true ↔
      (Smi.IsValid (normalizeYear y) = true ∧ IsMonth m = true ∧
        IsDay d = true)) ∧
    ((c.Write out).1 = true →
      (c.Write out).2 =
        ((out.set .YEAR (some (normalizeYear y))).set
          .MONTH (some (m - 1))).set .DAY (some d)) := by
  cases h1 : Smi.IsValid (normalizeYear y) <;> cases h2 : IsMonth m <;>
    cases h3 : IsDay d <;> simp [DayComposer.Write, h, h1, h2, h3]

/-- C7 witness: `(4, 31, 1999)` — day 31 in the 30-day month April —
succeeds and writes year 1999, 0-based month 3, day 31. -/
theorem C7_day_write_validation_and_output_witness :
    (DayComposer.Write ⟨[4, 31, 1999], none⟩ emptyOutput).1 = true ∧
    (DayComposer.Write ⟨[4, 31, 1999], none⟩ emptyOutput).2 =
      ((emptyOutput.set .YEAR (some 1999)).set .MONTH (some 3)).set
        .DAY (some 31) := by
  have h := C7_day_write_validation_and_output ⟨[4, 31, 1999], none⟩
    emptyOutput 1999 4 31 (by decide)
  have hs : (DayComposer.Write ⟨[4, 31, 1999], none⟩ emptyOutput).1 = true :=
    h.1.mpr ⟨by decide, by decide, by decide⟩
  refine ⟨hs, ?_⟩
  have h2 := h.2 hs
  rw [h2]
  norm_num [normalizeYear, Between]

/-- C4: `TimeComposer::Write`: components not added default to 0; with an
hour offset set, a non-12-hour-clock hour fails and otherwise the final
hour is `hour % 12 + offset`; with no offset the components pass through;
success is then exactly hour 0–23, minute 0–59, second 0–59. -/
theorem C4_time_write (c : TimeComposer) (out : FixedArray) :
    (c.hour_offset = none →
      c.resolve = some (c.comp.getD 0 0, c.comp.getD 1 0, c.comp.getD 2 0)) ∧
    (∀ off, c.hour_offset = some off → IsHour12 (c.comp.getD 0 0) = false →
      (c.Write out).1 = false) ∧
    (∀ off, c.hour_offset = some off → IsHour12 (c.comp.getD 0 0) = true →
      c.resolve = some ((c.comp.getD 0 0).tmod 12 + off,
        c.comp.getD 1 0, c.comp.getD 2 0)) ∧
    (∀ h m s, c.resolve = some (h, m, s) →
      ((c.Write out).1 = true ↔
        (IsHour h = true ∧ IsMinute m = true ∧ IsSecond s = true))) := by
  refine ⟨fun hoff => ?_, fun off hoff hbad => ?_, fun off hoff hok => ?_,
    fun h m s hres => ?_⟩
  · simp [TimeComposer.resolve, hoff]
  · have hres : c.resolve = none := by
      simp only [List.getD_eq_getElem?_getD] at hbad
      simp [TimeComposer.resolve, hoff, hbad]
    simp [TimeComposer.Write, hres]
  · simp only [List.getD_eq_getElem?_getD] at hok
    simp [TimeComposer.resolve, hoff, hok]
  · cases h1 : IsHour h <;> cases h2 : IsMinute m <;> cases h3 : IsSecond s <;>
      simp [TimeComposer.Write, hres, h1, h2, h3]

/-- C4 witness: hour 12 AM resolves to 0, hour 12 PM to 12, hour 5 PM to
17, hour 13 with an offset fails, and 14:30 with no seconds succeeds with
second defaulted to 0. -/
theorem C4_time_write_witness :
    TimeComposer.resolve ⟨[12], some 0⟩ = some (0, 0, 0) ∧
    TimeComposer.resolve ⟨[12], some 12⟩ = some (12, 0, 0) ∧
    TimeComposer.resolve ⟨[5], some 12⟩ = some (17, 0, 0) ∧
    (TimeComposer.Write ⟨[13], some 0⟩ emptyOutput).1 = false ∧
    (TimeComposer.Write ⟨[14, 30], none⟩ emptyOutput).1 = true := by
  refine ⟨?_, ?_, ?_, ?_, ?_⟩
  · exact ((C4_time_write ⟨[12], some 0⟩ emptyOutput).2.2.1 0 rfl
      (by decide)).trans (by decide)
  · exact ((C4_time_write ⟨[12], some 12⟩ emptyOutput).2.2.1 12 rfl
      (by decide)).trans (by decide)
  · exact ((C4_time_write ⟨[5], some 12⟩ emptyOutput).2.2.1 12 rfl
      (by decide)).trans (by decide)
  · exact (C4_time_write ⟨[13], some 0⟩ emptyOutput).2.1 0 rfl (by decide)
  · exact ((C4_time_write ⟨[14, 30], none⟩ emptyOutput).2.2.2 14 30 0
      (by decide)).mpr ⟨by decide, by decide, by decide⟩

/-- C6: `TimeZoneComposer::Write`: with no sign set it succeeds and
writes the null "absent" marker to `UTC_OFFSET` whatever the hour/minute
state; with a sign set, unset hour/minute default to 0, the written value
is `sign * (hour*3600 + minute*60)` seconds and the only failure is that
value not fitting the small-integer range. -/
theorem C6_timezone_write (c : TimeZoneComposer) (out : FixedArray) :
    (c.sign = none →
      (c.Write out).1 = true ∧ (c.Write out).2 = out.set .UTC_OFFSET none) ∧
    (∀ s, c.sign = some s →
      (((c.Write out).1 = true ↔
        Smi.IsValid (s * (c.hour.getD 0 * 3600 + c.minute.getD 0 * 60)) =
          true) ∧
      ((c.Write out).1 = true →
        (c.Write out).2 = out.set .UTC_OFFSET
          (some (s * (c.hour.getD 0 * 3600 + c.minute.getD 0 * 60)))))) := by
  refine ⟨fun hsign => ?_, fun s hsign => ?_⟩
  · simp [TimeZoneComposer.Write, hsign]
  · cases h1 : Smi.IsValid (s * (c.hour.getD 0 * 3600 + c.minute.getD 0 * 60))
      <;> simp [TimeZoneComposer.Write, hsign, h1]

/-- C6 witness: sign -1, hour 5, minute 30 writes -19800 seconds; no sign
with hour and minute set still succeeds and writes the absent marker. -/
theorem C6_timezone_write_witness :
    (TimeZoneComposer.Write ⟨some (-1), some 5, some 30⟩ emptyOutput).1 =
      true ∧
    (TimeZoneComposer.Write ⟨some (-1), some 5, some 30⟩ emptyOutput).2 =
      emptyOutput.set .UTC_OFFSET (some (-19800)) ∧
    (TimeZoneComposer.Write ⟨none, some 5, some 30⟩ emptyOutput).1 = true ∧
    (TimeZoneComposer.Write ⟨none, some 5, some 30⟩ emptyOutput).2 =
      emptyOutput.set .UTC_OFFSET none := by
  have h := (C6_timezone_write ⟨some (-1), some 5, some 30⟩ emptyOutput).2
    (-1) rfl
  have h0 := (C6_timezone_write ⟨none, some 5, some 30⟩ emptyOutput).1 rfl
  have hs := h.1.mpr (by decide)
  refine ⟨hs, ?_, h0.1, h0.2⟩
  have h2 := h.2 hs
  rw [h2]
  norm_num

/-- C9: all three `Write` functions are all-or-nothing: whenever a
`Write` returns failure, the output record is returned unchanged. -/
theorem C9_write_all_or_nothing (out : FixedArray) :
    (∀ c : DayComposer, (c.Write out).1 = false → (c.Write out).2 = out) ∧
    (∀ c : TimeComposer, (c.Write out).1 = false → (c.Write out).2 = out) ∧
    (∀ c : TimeZoneComposer,
      (c.Write out).1 = false → (c.Write out).2 = out) := by
  refine ⟨fun c h => ?_, fun c h => ?_, fun c h => ?_⟩
  · rcases hres : c.resolve with _ | ⟨⟨y, m, d⟩⟩
    · simp [DayComposer.Write, hres]
    · cases h1 : Smi.IsValid (normalizeYear y) <;> cases h2 : IsMonth m <;>
        cases h3 : IsDay d <;>
        simp [DayComposer.Write, hres, h1, h2, h3] at h ⊢
  · rcases hres : c.resolve with _ | ⟨⟨hh, mm, ss⟩⟩
    · simp [TimeComposer.Write, hres]
    · cases h1 : IsHour hh <;> cases h2 : IsMinute mm <;>
        cases h3 : IsSecond ss <;>
        simp [TimeComposer.Write, hres, h1, h2, h3] at h ⊢
  · rcases hsign : c.sign with _ | s
    · simp [TimeZoneComposer.Write, hsign] at h
    · cases h1 : Smi.IsValid (s * (c.hour.getD 0 * 3600 + c.minute.getD 0 * 60))
        <;> simp [TimeZoneComposer.Write, hsign, h1] at h ⊢

/-- C9 witness: three concrete failing `Write` calls leave the output
record untouched. -/
theorem C9_write_all_or_nothing_witness :
    (DayComposer.Write ⟨[], none⟩ emptyOutput).2 = emptyOutput ∧
    (TimeComposer.Write ⟨[13], some 12⟩ emptyOutput).2 = emptyOutput ∧
    (TimeZoneComposer.Write ⟨some 1, some 1073741824, none⟩ emptyOutput).2 =
      emptyOutput := by
  refine ⟨?_, ?_, ?_⟩
  · exact (C9_write_all_or_nothing emptyOutput).1 ⟨[], none⟩ (by decide)
  · exact (C9_write_all_or_nothing emptyOutput).2.1 ⟨[13], some 12⟩
      (by decide)
  · exact (C9_write_all_or_nothing emptyOutput).2.2
      ⟨some 1, some 1073741824, none⟩ (by decide)

/-- C10 witness: the day-first ordering `(25, 12, 1999)` is rejected. -/
theorem C10_day_first_between_13_and_31_fails_witness :
    (DayComposer.Write ⟨[25, 12, 1999], none⟩ emptyOutput).1 = false :=
  C10_day_first_between_13_and_31_fails ⟨[25, 12, 1999], none⟩ emptyOutput
    rfl 25 12 1999 rfl (by decide) (by decide)

/-- The inner `while` loop finds all three positions matching exactly
when the three positional equalities hold. -/
theorem matchLen_eq_three (e : Entry) (p : Nat × Nat × Nat) :
    (KeywordTable.matchLen e p == 3) =
      (p.1 == e.c0 && p.2.1 == e.c1 && p.2.2 == e.c2) := by
  by_cases h0 : p.1 = e.c0 <;> by_cases h1 : p.2.1 = e.c1 <;>
    by_cases h2 : p.2.2 = e.c2 <;>
    simp [KeywordTable.matchLen, h0, h1, h2]

/-- A found first-accepted index is within the list. -/
theorem firstAccepted_lt_length (p : Nat × Nat × Nat) (len : Int)
    (es : List Entry) : ∀ j, KeywordTable.firstAccepted p len es = some j →
      j < es.length := by
  induction es with
  | nil => intro j h; simp [KeywordTable.firstAccepted] at h
  | cons e fr ih =>
    intro j h
    cases hacc : KeywordTable.acceptsE e p len with
    | true =>
      simp [KeywordTable.firstAccepted, hacc] at h
      simp [← h]
    | false =>
      simp [KeywordTable.firstAccepted, hacc] at h
      rcases hfa : KeywordTable.firstAccepted p len fr with _ | j'
      · rw [hfa] at h; simp at h
      · rw [hfa] at h
        simp at h
        have := ih j' hfa
        simp [← h]
        omega

/-- The `Lookup` scan over a front of non-sentinel entries followed by a
sentinel returns the offset of the first accepted entry, capped at the
sentinel's offset. -/
theorem lookupAux_spec (p : Nat × Nat × Nat) (len : Int)
    (front : List Entry) : ∀ (s : Entry) (i : Nat),
      (∀ e ∈ front, e.type ≠ KeywordType.INVALID) →
      s.type = KeywordType.INVALID →
      KeywordTable.lookupAux p len i (front ++ [s]) =
        i + (KeywordTable.firstAccepted p len (front ++ [s])).elim
          front.length (fun j => min j front.length) := by
  induction front with
  | nil =>
    intro s i _ hsent
    cases hfa : KeywordTable.acceptsE s p len <;>
      simp [KeywordTable.lookupAux, KeywordTable.firstAccepted, hfa, hsent]
  | cons e fr ih =>
    intro s i hfront hsent
    have hne : e.type ≠ KeywordType.INVALID := hfront e (List.mem_cons_self e fr)
    have hcond : (KeywordTable.matchLen e p == 3 &&
        (decide (len ≤ 3) || decide (e.type = KeywordType.MONTH_NAME))) =
        KeywordTable.acceptsE e p len := by
      rw [KeywordTable.acceptsE, matchLen_eq_three]
    rw [List.cons_append]
    show (if e.type = KeywordType.INVALID then i
      else if KeywordTable.matchLen e p == 3 &&
          (decide (len ≤ 3) || decide (e.type = KeywordType.MONTH_NAME)) then i
      else KeywordTable.lookupAux p len (i + 1) (fr ++ [s])) = _
    rw [if_neg hne, hcond]
    cases hacc : KeywordTable.acceptsE e p len with
    | true =>
      simp [KeywordTable.firstAccepted, hacc]
    | false =>
      rw [if_neg (by decide : ¬(false = true))]
      rw [ih s (i + 1) (fun e' he' => hfront e' (List.mem_cons_of_mem e he'))
        hsent]
      rcases hfa : KeywordTable.firstAccepted p len (fr ++ [s]) with _ | j <;>
        simp [KeywordTable.firstAccepted, hacc, hfa, List.length_cons] <;>
        omega

/-- C3: `KeywordTable::Lookup` scans the table from index 0 and returns
the index of the first entry whose three prefix characters all match
positionally and whose length is legal (`len ≤ 3` or a month name); when
no entry is accepted it returns the index of the sentinel entry, the last
entry of the table, whose classification is `INVALID`. -/
theorem C3_keyword_lookup (p : Nat × Nat × Nat) (len : Int) :
    KeywordTable.Lookup p len = KeywordTable.LookupSpec p len ∧
    (KeywordTable.array.getD (KeywordTable.array.length - 1)
      ⟨0, 0, 0, .INVALID, 0⟩).type = KeywordType.INVALID := by
  refine ⟨?_, by decide⟩
  have hfront : ∀ e ∈ KeywordTable.array.dropLast,
      e.type ≠ KeywordType.INVALID := by decide
  have h := lookupAux_spec p len KeywordTable.array.dropLast
    ⟨0, 0, 0, .INVALID, 0⟩ 0 hfront rfl
  have hsplit : KeywordTable.array.dropLast ++
      [(⟨0, 0, 0, .INVALID, 0⟩ : Entry)] = KeywordTable.array := by decide
  rw [hsplit] at h
  unfold KeywordTable.Lookup KeywordTable.LookupSpec
  rw [h]
  have h25 : KeywordTable.array.dropLast.length = 25 := by decide
  have h26 : KeywordTable.array.length = 26 := by decide
  rcases hfa : KeywordTable.firstAccepted p len KeywordTable.array with _ | j
  · simp [h25, h26]
  · have hj := firstAccepted_lt_length p len KeywordTable.array j hfa
    simp only [Option.elim]
    simp [h25]
    omega

/-- C8: concrete keyword lookups: prefix "jan" at word length 3 and at
word length 7 both return entry 0, a month name with value 1; prefix
"pst" at length 3 returns entry 24, a timezone name with value -8; prefix
"xyz" returns the sentinel index 25 at every word length. -/
theorem C8_keyword_lookup_concrete :
    KeywordTable.Lookup ('j'.toNat, 'a'.toNat, 'n'.toNat) 3 = 0 ∧
    KeywordTable.Lookup ('j'.toNat, 'a'.toNat, 'n'.toNat) 7 = 0 ∧
    (KeywordTable.array.getD 0 ⟨0, 0, 0, .INVALID, 0⟩).type =
      KeywordType.MONTH_NAME ∧
    (KeywordTable.array.getD 0 ⟨0, 0, 0, .INVALID, 0⟩).value = 1 ∧
    KeywordTable.Lookup ('p'.toNat, 's'.toNat, 't'.toNat) 3 = 24 ∧
    (KeywordTable.array.getD 24 ⟨0, 0, 0, .INVALID, 0⟩).type =
      KeywordType.TIME_ZONE_NAME ∧
    (KeywordTable.array.getD 24 ⟨0, 0, 0, .INVALID, 0⟩).value = -8 ∧
    (∀ len : Int, KeywordTable.Lookup ('x'.toNat, 'y'.toNat, 'z'.toNat) len
      = 25) ∧
    KeywordTable.array.length = 26 ∧
    (KeywordTable.array.getD 25 ⟨0, 0, 0, .INVALID, 0⟩).type =
      KeywordType.INVALID :=
  ⟨by decide, by decide, by decide, by decide, by decide, by decide,
    by decide, fun _ => rfl, by decide, by decide⟩

end DateParser
